import Mathlib

/-!
Verification of the tiered model-routing logic of the repository:
the keyword-heuristic complexity classifiers and model selectors
(`SmartModelRouter` in local-ai-service/models/smart_router.py and
`ComplexityAnalyzer` / `OllamaRouter` in
zero-cost-ai-marketplace/backend/services/ai_router.py), the
retry/circuit-breaker HTTP client (`BulletproofClient` in
backend/services/bulletproof_client.py), and the agent dispatcher
(`MultiAgentRouter` in backend/services/multi_agent_system.py).

The Python code is embedded shallowly: HTTP calls are abstracted by an
oracle describing the backend behaviour for each attempt, wall-clock
timestamps are explicit integer parameters (measured durations are
rationals), and mutable attributes (statistics counters, circuit-breaker
state) are threaded explicitly.
-/

set_option maxRecDepth 100000
set_option maxHeartbeats 2000000

/-- Does `sub` occur contiguously in the character list? -/
def charsContain (sub : List Char) : List Char → Bool
  | [] => sub.isEmpty
  | c :: rest => sub.isPrefixOf (c :: rest) || charsContain sub rest

/-- Python substring test `sub in s`. -/
def pyContains (s sub : String) : Bool :=
  charsContain sub.toList s.toList

/-- Python `s.lower()`, character by character. -/
def pyToLower (s : String) : String :=
  String.mk (s.toList.map Char.toLower)

/-- Python `s.split()`: split on whitespace, dropping empty pieces. -/
def pySplit (s : String) : List String :=
  ((s.toList.splitOnP Char.isWhitespace).filter (fun w => !w.isEmpty)).map (fun w => String.mk w)

/-- The two backend models (`ModelType` enum, identical in both router files). -/
inductive ModelType where
  | LIGHTWEIGHT
  | HEAVYWEIGHT
deriving DecidableEq, Repr

/-- The `.value` of each `ModelType` member. -/
def ModelType.value : ModelType → String
  | .LIGHTWEIGHT => "llama3.2:3b"
  | .HEAVYWEIGHT => "gpt-oss:20b"

/-- `TaskComplexity` enum of smart_router.py. -/
inductive TaskComplexity where
  | SIMPLE
  | MEDIUM
  | COMPLEX
  | ENTERPRISE
deriving DecidableEq, Repr

/-- `.name` of a `TaskComplexity` member. -/
def TaskComplexity.name : TaskComplexity → String
  | .SIMPLE => "SIMPLE"
  | .MEDIUM => "MEDIUM"
  | .COMPLEX => "COMPLEX"
  | .ENTERPRISE => "ENTERPRISE"

/-- `enterprise_keywords` list of `SmartModelRouter.analyze_task_complexity`. -/
def enterprise_keywords : List String :=
  ["create python class", "build api", "fastapi", "database",
   "architecture", "system design", "integration", "enterprise",
   "production code", "business strategy", "market analysis"]

/-- `complex_keywords` list of `SmartModelRouter.analyze_task_complexity`. -/
def complex_keywords : List String :=
  ["analyze", "design", "develop", "implement", "architecture",
   "algorithm", "optimization", "integration", "framework"]

/-- `simple_keywords` list of `SmartModelRouter.analyze_task_complexity`. -/
def simple_keywords : List String :=
  ["hello", "hi", "what is", "how to", "explain", "summary",
   "quick", "simple", "basic", "list"]

/-- `SmartModelRouter.analyze_task_complexity` (smart_router.py lines 55-99).
The unused `context` parameter is omitted. -/
def analyze_task_complexity (prompt : String) : TaskComplexity :=
  let prompt_lower := pyToLower prompt
  if enterprise_keywords.any (fun keyword => pyContains prompt_lower keyword) then
    TaskComplexity.ENTERPRISE
  else if complex_keywords.any (fun keyword => pyContains prompt_lower keyword) then
    TaskComplexity.COMPLEX
  else if (pySplit prompt).length > 50 then
    TaskComplexity.COMPLEX
  else if simple_keywords.any (fun keyword => pyContains prompt_lower keyword) then
    TaskComplexity.SIMPLE
  else
    TaskComplexity.MEDIUM

/-- `SmartModelRouter.select_optimal_model` (smart_router.py lines 101-122). -/
def select_optimal_model (complexity : TaskComplexity) (customer_tier : String) : ModelType :=
  if customer_tier = "enterprise" then
    ModelType.HEAVYWEIGHT
  else if complexity = TaskComplexity.ENTERPRISE then
    ModelType.HEAVYWEIGHT
  else if complexity = TaskComplexity.COMPLEX ∧ customer_tier = "premium" then
    ModelType.HEAVYWEIGHT
  else if complexity = TaskComplexity.COMPLEX then
    ModelType.HEAVYWEIGHT
  else
    ModelType.LIGHTWEIGHT

/-- `lightweight_keywords` of `ComplexityAnalyzer.analyze_prompt` (ai_router.py). -/
def lightweight_keywords : List String :=
  ["hello", "hi", "simple", "quick", "basic", "what", "when", "where"]

/-- `heavyweight_keywords` of `ComplexityAnalyzer.analyze_prompt` (ai_router.py). -/
def heavyweight_keywords : List String :=
  ["code", "complex", "analyze", "detailed", "algorithm", "business",
   "strategy", "technical", "architecture"]

/-- `ComplexityAnalyzer.analyze_prompt` (ai_router.py lines 12-30).
`sum(1 for keyword in kws if keyword in prompt_lower)` is `List.countP`.
On a `String` argument, Python `(prompt or "")` is the identity (`"" or ""`
is `""`), so the or-default is dropped. -/
def ComplexityAnalyzer.analyze_prompt (prompt : String) : ModelType :=
  let prompt_lower := pyToLower prompt
  let word_count := (pySplit prompt).length
  if word_count > 50 then
    ModelType.HEAVYWEIGHT
  else
    let heavyweight_score := heavyweight_keywords.countP (fun keyword => pyContains prompt_lower keyword)
    let lightweight_score := lightweight_keywords.countP (fun keyword => pyContains prompt_lower keyword)
    if heavyweight_score > lightweight_score then
      ModelType.HEAVYWEIGHT
    else
      ModelType.LIGHTWEIGHT

/-- Python `(customer_tier or "basic")` where `customer_tier` may be `None`:
`None` and the empty string are falsy. -/
def effective_tier : Option String → String
  | none => "basic"
  | some s => if s = "" then "basic" else s

/-- The model selected by `OllamaRouter.generate_response`
(ai_router.py lines 38-44, the `selected_model` assignment). -/
def OllamaRouter.selected_model (prompt : String) (customer_tier : Option String) : ModelType :=
  if pyToLower (effective_tier customer_tier) = "enterprise" then
    ModelType.HEAVYWEIGHT
  else if pyToLower (effective_tier customer_tier) = "premium" then
    ComplexityAnalyzer.analyze_prompt prompt
  else
    ModelType.LIGHTWEIGHT

/-- Per-model entry of `SmartModelRouter.model_stats`. -/
structure ModelStats where
  requests : Nat
  avg_time : Rat
  success_rate : Rat
deriving DecidableEq, Repr

/-- The `model_stats` dictionary of `SmartModelRouter`, one entry per model. -/
structure RouterStats where
  lightweight : ModelStats
  heavyweight : ModelStats
deriving DecidableEq, Repr

/-- `SmartModelRouter.__init__`: both counters start at zero. -/
def initial_stats : RouterStats :=
  { lightweight := { requests := 0, avg_time := 0, success_rate := 0 },
    heavyweight := { requests := 0, avg_time := 0, success_rate := 0 } }

/-- Read the entry of one model. -/
def RouterStats.get (stats : RouterStats) : ModelType → ModelStats
  | ModelType.LIGHTWEIGHT => stats.lightweight
  | ModelType.HEAVYWEIGHT => stats.heavyweight

/-- Write the entry of one model. -/
def RouterStats.set (stats : RouterStats) : ModelType → ModelStats → RouterStats
  | ModelType.LIGHTWEIGHT, entry => { stats with lightweight := entry }
  | ModelType.HEAVYWEIGHT, entry => { stats with heavyweight := entry }

/-- `SmartModelRouter._update_stats` (smart_router.py lines 217-229).
`response_time` is the elapsed wall-clock time, passed in explicitly. -/
def update_stats (stats : RouterStats) (model : ModelType) (response_time : Rat)
    (success : Bool) : RouterStats :=
  let entry := stats.get model
  let entry := { entry with requests := entry.requests + 1 }
  if success then
    let old_avg := entry.avg_time
    let old_count : Rat := entry.requests - 1
    let entry := { entry with avg_time := (old_avg * old_count + response_time) / entry.requests }
    let entry := { entry with success_rate := (entry.success_rate * old_count + 1) / entry.requests }
    stats.set model entry
  else
    stats.set model entry

/-- The dictionary returned by `SmartModelRouter.generate_response` on success.
`response_time` carries the measured elapsed time (`round(..., 2)` is kept as
the raw value: rounding is display-only and no claim concerns it). -/
structure SRResult where
  response : String
  model_used : String
  complexity : String
  response_time : Rat
  cost_efficiency : String
  profit_margin : String
deriving DecidableEq, Repr

/-- Outcome of one `SmartModelRouter.generate_response` invocation:
the returned dictionary or the raised exception message, the updated
statistics, and the models called (in order). -/
structure GenOutcome where
  result : Except String SRResult
  stats : RouterStats
  calls : List ModelType
deriving Repr

/-- The alternative model tried on failure (smart_router.py lines 172-173). -/
def alternative_model (model : ModelType) : ModelType :=
  if model = ModelType.HEAVYWEIGHT then ModelType.LIGHTWEIGHT else ModelType.HEAVYWEIGHT

/-- `SmartModelRouter.generate_response` (smart_router.py lines 124-189).
`oracle` abstracts `_call_ollama`: for each model, either the response text
or the raised exception message.  `rt` abstracts the measured elapsed time.
On first-call success the statistics are updated; the fallback path does not
call `_update_stats`.  If the alternative also fails the method raises
`Exception("All AI models unavailable")`, which the embedding returns as
`Except.error`. -/
def SmartModelRouter.generate_response (stats : RouterStats) (prompt : String)
    (customer_tier : String) (oracle : ModelType → Except String String)
    (rt : Rat) : GenOutcome :=
  let complexity := analyze_task_complexity prompt
  let model := select_optimal_model complexity customer_tier
  match oracle model with
  | Except.ok response =>
      { result := Except.ok
          { response := response,
            model_used := model.value,
            complexity := complexity.name,
            response_time := rt,
            cost_efficiency := if model = ModelType.LIGHTWEIGHT then "MAXIMUM" else "PREMIUM",
            profit_margin := if model = ModelType.LIGHTWEIGHT then "98%" else "95%" },
        stats := update_stats stats model rt true,
        calls := [model] }
  | Except.error _ =>
      let alternative := alternative_model model
      match oracle alternative with
      | Except.ok response =>
          { result := Except.ok
              { response := response,
                model_used := alternative.value ++ " (fallback)",
                complexity := complexity.name,
                response_time := rt,
                cost_efficiency := "FALLBACK",
                profit_margin := "95%" },
            stats := stats,
            calls := [model, alternative] }
      | Except.error _ =>
          { result := Except.error "All AI models unavailable",
            stats := stats,
            calls := [model, alternative] }

/-- The dictionary returned by `OllamaRouter.generate_response` / its
`_fallback_response`.  The `timestamp` and `request_id` fields (derived from
`time.time()` and `hash(prompt)`) are not modelled; no claim concerns them. -/
structure ORResult where
  success : Bool
  response : String
  model_used : String
  complexity : String
  response_time : Rat
  cost_efficiency : String
  profit_margin : String
  error : Option String
deriving DecidableEq, Repr

/-- `OllamaRouter._fallback_response` (ai_router.py lines 72-99). -/
def OllamaRouter.fallback_response (prompt : String) (error : String) : ORResult :=
  let p := pyToLower prompt
  let resp :=
    if ["code", "python", "javascript", "function"].any (fun k => pyContains p k) then
      "I can help you with coding. Here\x27s a basic structure:\n\n```python\n# Your code here\ndef solution():\n    pass\n```"
    else if ["business", "revenue", "profit", "strategy"].any (fun k => pyContains p k) then
      "Based on current market trends, focus on acquisition and retention; optimize pricing and margins."
    else if ["technical", "architecture", "system", "design"].any (fun k => pyContains p k) then
      "This requires technical analysis. I can provide detailed implementation guidance."
    else
      "I understand your request. Here\x27s a comprehensive response to help you proceed."
  { success := false,
    response := resp,
    model_used := "fallback",
    complexity := "fallback",
    response_time := 1 / 2,
    cost_efficiency := "100%",
    profit_margin := "100%",
    error := some error }

/-- `OllamaRouter.generate_response` (ai_router.py lines 38-62).
`oracle` abstracts `_call_ollama` for the selected model: the response text,
or the exception message caught by the `except` branch.  `rt` abstracts the
measured elapsed time of the successful call. -/
def OllamaRouter.generate_response (prompt : String) (customer_tier : Option String)
    (oracle : Except String String) (rt : Rat) : ORResult :=
  let selected_model := OllamaRouter.selected_model prompt customer_tier
  match oracle with
  | Except.ok response =>
      { success := true,
        response := response,
        model_used := selected_model.value,
        complexity := if selected_model = ModelType.HEAVYWEIGHT then "high" else "low",
        response_time := rt,
        cost_efficiency := if selected_model = ModelType.LIGHTWEIGHT then "98%" else "95%",
        profit_margin := if selected_model = ModelType.LIGHTWEIGHT then "98%" else "95%",
        error := none }
  | Except.error e => OllamaRouter.fallback_response prompt e

/-- One HTTP attempt of `BulletproofClient.call_ollama`, as seen through
`httpx`: status-200 with a parseable JSON body, status-200 whose body makes
`response.json()` raise, a non-200 status, or one of the caught exceptions. -/
inductive AttemptOutcome where
  | ok200 (data : String)
  | badJson200
  | non200 (code : Nat)
  | timeout
  | connectError
  | otherExn
deriving DecidableEq, Repr

/-- Did the attempt return HTTP 200 with a parseable body (the only case in
which `call_ollama` returns from inside the loop)? -/
def isOk200 : AttemptOutcome → Bool
  | AttemptOutcome.ok200 _ => true
  | _ => false

/-- Did the attempt receive HTTP status 200 at all (this is what resets
`_failure_count`, even when `response.json()` subsequently raises)? -/
def has200 : AttemptOutcome → Bool
  | AttemptOutcome.ok200 _ => true
  | AttemptOutcome.badJson200 => true
  | _ => false

/-- `_failure_count` after a non-returning attempt: an HTTP-200 attempt has
already executed `self._failure_count = 0` before `response.json()` raised. -/
def fcAfter (out : AttemptOutcome) (fc : Nat) : Nat :=
  match out with
  | AttemptOutcome.badJson200 => 0
  | _ => fc

/-- Circuit-breaker state of `BulletproofClient` (`_failure_count`,
`_open_until`), the mutable attributes set in `__init__`. -/
structure CBState where
  failure_count : Nat
  open_until : Int
deriving DecidableEq, Repr

/-- The fresh state set by `BulletproofClient.__init__`. -/
def initial_cb_state : CBState := { failure_count := 0, open_until := 0 }

/-- `max_retries` set in `BulletproofClient.__init__`. -/
def max_retries : Nat := 3

/-- `retry_delay` (seconds) set in `BulletproofClient.__init__`. -/
def retry_delay : Int := 1

/-- `_failure_threshold` set in `BulletproofClient.__init__`. -/
def failure_threshold : Nat := 5

/-- `_open_cooldown_s` (seconds) set in `BulletproofClient.__init__`. -/
def open_cooldown_s : Int := 15

/-- The `APIResponse` dataclass of bulletproof_client.py.  The
`response_time` field (a wall-clock duration) is fixed at `0` in the
embedding; no claim concerns it. -/
structure APIResponse where
  success : Bool
  data : String
  error : Option String
  status_code : Nat
  response_time : Rat
deriving DecidableEq, Repr

/-- Everything observable about one `call_ollama` invocation: the returned
`APIResponse`, the circuit-breaker state afterwards, how many HTTP attempts
were issued, and the backoff sleeps performed (in order, in seconds). -/
structure CallResult where
  resp : APIResponse
  state : CBState
  attempts : Nat
  sleeps : List Int
deriving DecidableEq, Repr

/-- The success response built from a 200 attempt. -/
def okResp (data : String) : APIResponse :=
  { success := true, data := data, error := none, status_code := 200, response_time := 0 }

/-- `BulletproofClient.call_ollama` (bulletproof_client.py lines 33-93).

`t` is the wall-clock time of the invocation (the several `time.time()`
calls within one invocation are modelled as the single instant `t`);
`o i` is the backend behaviour of attempt `i`.  The `model` and `prompt`
arguments only form the request payload, whose effect is inside `o`.
The `for attempt in range(self.max_retries)` loop is unrolled for
`max_retries = 3` (fixed in `__init__`): each attempt either returns on
status 200 with a parseable body, or falls through (any exception and any
non-200 status are retryable), sleeping `retry_delay * 2 ** attempt`
before the next attempt when one remains.  After an exhausted loop the
failure count is incremented and the circuit trips at the threshold. -/
def call_ollama (s : CBState) (model prompt : String) (t : Int)
    (o : Nat → AttemptOutcome) : CallResult :=
  if t < s.open_until then
    { resp := { success := false, data := "", error := some "circuit_open",
                status_code := 503, response_time := 0 },
      state := s, attempts := 0, sleeps := [] }
  else
    match o 0 with
    | AttemptOutcome.ok200 data =>
        { resp := okResp data, state := { failure_count := 0, open_until := s.open_until },
          attempts := 1, sleeps := [] }
    | out0 =>
      let fc0 := fcAfter out0 s.failure_count
      match o 1 with
      | AttemptOutcome.ok200 data =>
          { resp := okResp data, state := { failure_count := 0, open_until := s.open_until },
            attempts := 2, sleeps := [retry_delay * 2 ^ 0] }
      | out1 =>
        let fc1 := fcAfter out1 fc0
        match o 2 with
        | AttemptOutcome.ok200 data =>
            { resp := okResp data, state := { failure_count := 0, open_until := s.open_until },
              attempts := 3, sleeps := [retry_delay * 2 ^ 0, retry_delay * 2 ^ 1] }
        | out2 =>
          let fc2 := fcAfter out2 fc1 + 1
          let ou := if failure_threshold ≤ fc2 then t + open_cooldown_s else s.open_until
          { resp := { success := false, data := "", error := some "Service unavailable",
                      status_code := 500, response_time := 0 },
            state := { failure_count := fc2, open_until := ou },
            attempts := 3, sleeps := [retry_delay * 2 ^ 0, retry_delay * 2 ^ 1] }

/-- Run a sequence of `call_ollama` invocations (each given by its time and
backend behaviour), threading the circuit-breaker state. -/
def runCalls (s : CBState) (mdl prm : String) : List (Int × (Nat → AttemptOutcome)) → CBState
  | [] => s
  | (t, o) :: rest => runCalls (call_ollama s mdl prm t o).state mdl prm rest

/-- Did every HTTP attempt of the call fail, i.e. no attempt received
status 200 (the reading of a failed attempt fixed by the claim, which calls
an HTTP-200 attempt successful)? -/
def allAttemptsFailed (o : Nat → AttemptOutcome) : Bool :=
  !(has200 (o 0) || has200 (o 1) || has200 (o 2))

/-- Length of the trailing run of calls, in a call sequence, in which every
attempt failed. -/
def trailingAllFailed (trace : List (Int × (Nat → AttemptOutcome))) : Nat :=
  (trace.reverse.takeWhile (fun c => allAttemptsFailed c.2)).length

/-- The `AgentType` string constants of multi_agent_system.py. -/
def AgentType.CHAT : String := "chat_agent"

/-- `AgentType.CODE`. -/
def AgentType.CODE : String := "code_agent"

/-- `AgentType.BUSINESS`. -/
def AgentType.BUSINESS : String := "business_agent"

/-- `AgentType.TECHNICAL`. -/
def AgentType.TECHNICAL : String := "technical_agent"

/-- `MultiAgentRouter.classify_request` (multi_agent_system.py lines 21-29). -/
def MultiAgentRouter.classify_request (prompt : String) : String :=
  let p := pyToLower prompt
  if ["code", "function", "python", "javascript", "programming"].any (fun k => pyContains p k) then
    AgentType.CODE
  else if ["business", "revenue", "strategy", "market", "profit"].any (fun k => pyContains p k) then
    AgentType.BUSINESS
  else if ["architecture", "system", "technical", "infrastructure"].any (fun k => pyContains p k) then
    AgentType.TECHNICAL
  else
    AgentType.CHAT

/-- The model of the `self.agents` entry for an agent type
(multi_agent_system.py lines 14-19). -/
def MultiAgentRouter.agent_model (agent_type : String) : String :=
  if agent_type = AgentType.CHAT then "llama3.2:3b"
  else if agent_type = AgentType.CODE then "gpt-oss:20b"
  else if agent_type = AgentType.BUSINESS then "gpt-oss:20b"
  else if agent_type = AgentType.TECHNICAL then "gpt-oss:20b"
  else "llama3.2:3b"

/-- The system text of the `self.agents` entry for an agent type. -/
def MultiAgentRouter.agent_system (agent_type : String) : String :=
  if agent_type = AgentType.CHAT then "You are a helpful chat assistant."
  else if agent_type = AgentType.CODE then "You are a professional code generator."
  else if agent_type = AgentType.BUSINESS then "You are a business strategy expert."
  else "You are a technical architect."

/-- The dictionary returned by `MultiAgentRouter.process_request`. -/
structure MAResult where
  success : Bool
  response : String
  agent_used : String
  model_used : String
  response_time : Rat
  status : String
deriving DecidableEq, Repr

/-- `MultiAgentRouter.generate_fallback_response`
(multi_agent_system.py lines 49-63). -/
def MultiAgentRouter.generate_fallback_response (_prompt : String)
    (agent_type : String) : MAResult :=
  let fb :=
    if agent_type = AgentType.CHAT then "I understand your message. How can I help you today?"
    else if agent_type = AgentType.CODE then "Here\x27s a code template:\n\n```python\n# Your solution here\ndef main():\n    pass\n```"
    else if agent_type = AgentType.BUSINESS then "Focus on customer value and operational efficiency to grow revenue sustainably."
    else if agent_type = AgentType.TECHNICAL then "Prioritize scalability, security, and maintainability in your architecture."
    else "I understand your message. How can I help you today?"
  { success := true,
    response := fb,
    agent_used := agent_type,
    model_used := "fallback",
    response_time := 1 / 2,
    status := "fallback_active" }

/-- `MultiAgentRouter.process_request` (multi_agent_system.py lines 31-47).
`resp` is the `APIResponse` produced by `self.client.call_ollama` for the
enhanced prompt (the `BulletproofClient` behaviour is modelled above;
here it is the call's abstracted result). -/
def MultiAgentRouter.process_request (prompt : String) (customer_tier : Option String)
    (resp : APIResponse) : MAResult :=
  let agent_type := MultiAgentRouter.classify_request prompt
  let model :=
    if pyToLower (effective_tier customer_tier) = "basic" then "llama3.2:3b"
    else MultiAgentRouter.agent_model agent_type
  if resp.success then
    { success := true,
      response := resp.data,
      agent_used := agent_type,
      model_used := model,
      response_time := resp.response_time,
      status := "operational" }
  else
    MultiAgentRouter.generate_fallback_response prompt agent_type


/-- Claim C1: for every classified complexity, when the customer tier is
"enterprise" the router selects the heavyweight model:
`SmartModelRouter.select_optimal_model` returns `HEAVYWEIGHT` whenever
`customer_tier == "enterprise"`, and the selection of
`OllamaRouter.generate_response` is `HEAVYWEIGHT` whenever the customer
tier lower-cases to "enterprise". -/
theorem C1_enterprise_tier_heavyweight :
    (∀ (complexity : TaskComplexity) (customer_tier : String),
        customer_tier = "enterprise" →
        select_optimal_model complexity customer_tier = ModelType.HEAVYWEIGHT) ∧
    (∀ (prompt : String) (customer_tier : Option String),
        pyToLower (effective_tier customer_tier) = "enterprise" →
        OllamaRouter.selected_model prompt customer_tier = ModelType.HEAVYWEIGHT) := by
  constructor
  · intro complexity customer_tier h
    simp [select_optimal_model, h]
  · intro prompt customer_tier h
    simp [OllamaRouter.selected_model, h]

/-- Witness for C1 at concrete inputs (including a tier that only
lower-cases to "enterprise"). -/
theorem C1_enterprise_tier_heavyweight_witness :
    select_optimal_model TaskComplexity.SIMPLE "enterprise" = ModelType.HEAVYWEIGHT ∧
    OllamaRouter.selected_model "hello" (some "Enterprise") = ModelType.HEAVYWEIGHT :=
  ⟨C1_enterprise_tier_heavyweight.1 TaskComplexity.SIMPLE "enterprise" rfl,
   C1_enterprise_tier_heavyweight.2 "hello" (some "Enterprise") (by decide)⟩

/-- Claim C5: complexity classification by keyword membership and length.
Any prompt of more than 50 whitespace-separated words with no enterprise
keyword is classified `COMPLEX` by `SmartModelRouter.analyze_task_complexity`,
and `ComplexityAnalyzer.analyze_prompt` returns `HEAVYWEIGHT` for every
prompt of more than 50 words regardless of keyword scores. -/
theorem C5_long_prompt_complex :
    (∀ prompt : String,
        50 < (pySplit prompt).length →
        enterprise_keywords.any (fun keyword => pyContains (pyToLower prompt) keyword) = false →
        analyze_task_complexity prompt = TaskComplexity.COMPLEX) ∧
    (∀ prompt : String,
        50 < (pySplit prompt).length →
        ComplexityAnalyzer.analyze_prompt prompt = ModelType.HEAVYWEIGHT) := by
  constructor
  · intro prompt hlen hent
    simp [analyze_task_complexity, hent, hlen]
  · intro prompt hlen
    simp [ComplexityAnalyzer.analyze_prompt, hlen]

/-- Witness for C5: a 51-word prompt free of enterprise keywords. -/
theorem C5_long_prompt_complex_witness :
    analyze_task_complexity (String.intercalate " " (List.replicate 51 "word")) =
      TaskComplexity.COMPLEX ∧
    ComplexityAnalyzer.analyze_prompt (String.intercalate " " (List.replicate 51 "word")) =
      ModelType.HEAVYWEIGHT :=
  ⟨C5_long_prompt_complex.1 (String.intercalate " " (List.replicate 51 "word"))
      (by decide) (by decide),
   C5_long_prompt_complex.2 (String.intercalate " " (List.replicate 51 "word")) (by decide)⟩

/-- Counterexample to claim C9 as stated: "PREMIUM" is a customer-tier value
other than "premium" and "enterprise", yet `OllamaRouter.generate_response`
does not select the lightweight model for it; the code lower-cases the tier,
so a keyword-heavy prompt is routed to the heavyweight model. -/
theorem C9_counterexample :
    ("PREMIUM" ≠ "premium" ∧ "PREMIUM" ≠ "enterprise") ∧
    OllamaRouter.selected_model "analyze the code business strategy" (some "PREMIUM") =
      ModelType.HEAVYWEIGHT ∧
    OllamaRouter.selected_model "analyze the code business strategy" (some "PREMIUM") ≠
      ModelType.LIGHTWEIGHT := by
  decide

/-- Claim C9 as amended: prompt content influences the selection of
`OllamaRouter.generate_response` only for tiers that lower-case to
"premium"; for every prompt and every customer tier whose effective value
lower-cases to neither "premium" nor "enterprise" (including `None`),
the selected model is the lightweight one. -/
theorem C9_amended_non_premium_lightweight :
    ∀ (prompt : String) (customer_tier : Option String),
      pyToLower (effective_tier customer_tier) ≠ "enterprise" →
      pyToLower (effective_tier customer_tier) ≠ "premium" →
      OllamaRouter.selected_model prompt customer_tier = ModelType.LIGHTWEIGHT := by
  intro prompt customer_tier h1 h2
  simp [OllamaRouter.selected_model, h1, h2]

/-- Witness for the amended C9: a keyword-heavy prompt with tier `None`
and with tier "basic" still selects the lightweight model. -/
theorem C9_amended_non_premium_lightweight_witness :
    OllamaRouter.selected_model "analyze the code business strategy" none =
      ModelType.LIGHTWEIGHT ∧
    OllamaRouter.selected_model "analyze the code business strategy" (some "basic") =
      ModelType.LIGHTWEIGHT :=
  ⟨C9_amended_non_premium_lightweight "analyze the code business strategy" none
      (by decide) (by decide),
   C9_amended_non_premium_lightweight "analyze the code business strategy" (some "basic")
      (by decide) (by decide)⟩

/-- Claim C10: `MultiAgentRouter.process_request` always returns a
dictionary whose success field is True; when the backend call fails the
fallback still reports success, and the only indication of failure is
`model_used = "fallback"` and `status = "fallback_active"`. -/
theorem C10_process_request_always_success :
    ∀ (prompt : String) (customer_tier : Option String) (resp : APIResponse),
      (MultiAgentRouter.process_request prompt customer_tier resp).success = true ∧
      (resp.success = false →
        (MultiAgentRouter.process_request prompt customer_tier resp).model_used = "fallback" ∧
        (MultiAgentRouter.process_request prompt customer_tier resp).status = "fallback_active") := by
  intro prompt customer_tier resp
  constructor
  · cases h : resp.success <;>
      simp [MultiAgentRouter.process_request, MultiAgentRouter.generate_fallback_response, h]
  · intro h
    simp [MultiAgentRouter.process_request, MultiAgentRouter.generate_fallback_response, h]

/-- Witness for C10 at a failed backend call. -/
theorem C10_process_request_always_success_witness :
    (MultiAgentRouter.process_request "hi" (some "basic")
        { success := false, data := "", error := some "Service unavailable",
          status_code := 500, response_time := 0 }).success = true ∧
    (MultiAgentRouter.process_request "hi" (some "basic")
        { success := false, data := "", error := some "Service unavailable",
          status_code := 500, response_time := 0 }).model_used = "fallback" ∧
    (MultiAgentRouter.process_request "hi" (some "basic")
        { success := false, data := "", error := some "Service unavailable",
          status_code := 500, response_time := 0 }).status = "fallback_active" :=
  ⟨(C10_process_request_always_success "hi" (some "basic")
      { success := false, data := "", error := some "Service unavailable",
        status_code := 500, response_time := 0 }).1,
   (C10_process_request_always_success "hi" (some "basic")
      { success := false, data := "", error := some "Service unavailable",
        status_code := 500, response_time := 0 }).2 rfl⟩

/-- Counterexample to claim C3 as stated: the prompt
"explain business code detailed" has at most 50 words, contains the simple
keyword "explain" and no enterprise or complex keyword, and
`SmartModelRouter` classifies it SIMPLE and routes it to the lightweight
model; yet `ComplexityAnalyzer.analyze_prompt` returns the heavyweight
model for it, because "business", "code" and "detailed" are heavyweight
keywords of that analyzer. -/
theorem C3_counterexample :
    ((pySplit "explain business code detailed").length ≤ 50 ∧
     simple_keywords.any
       (fun keyword => pyContains (pyToLower "explain business code detailed") keyword) = true ∧
     enterprise_keywords.any
       (fun keyword => pyContains (pyToLower "explain business code detailed") keyword) = false ∧
     complex_keywords.any
       (fun keyword => pyContains (pyToLower "explain business code detailed") keyword) = false ∧
     analyze_task_complexity "explain business code detailed" = TaskComplexity.SIMPLE ∧
     select_optimal_model TaskComplexity.SIMPLE "basic" = ModelType.LIGHTWEIGHT) ∧
    ComplexityAnalyzer.analyze_prompt "explain business code detailed" ≠
      ModelType.LIGHTWEIGHT := by
  decide

/-- Claim C3 as amended: for every customer tier other than "enterprise",
a prompt of at most 50 words containing a simple keyword and no enterprise
or complex keyword is classified SIMPLE by `SmartModelRouter` and routed to
the lightweight model; `ComplexityAnalyzer.analyze_prompt` returns the
lightweight model for such a prompt provided it also contains none of that
analyzer's heavyweight keywords. -/
theorem C3_amended_simple_prompt_lightweight :
    ∀ (prompt customer_tier : String),
      customer_tier ≠ "enterprise" →
      (pySplit prompt).length ≤ 50 →
      simple_keywords.any (fun keyword => pyContains (pyToLower prompt) keyword) = true →
      enterprise_keywords.any (fun keyword => pyContains (pyToLower prompt) keyword) = false →
      complex_keywords.any (fun keyword => pyContains (pyToLower prompt) keyword) = false →
      analyze_task_complexity prompt = TaskComplexity.SIMPLE ∧
      select_optimal_model (analyze_task_complexity prompt) customer_tier =
        ModelType.LIGHTWEIGHT ∧
      (heavyweight_keywords.any (fun keyword => pyContains (pyToLower prompt) keyword) = false →
        ComplexityAnalyzer.analyze_prompt prompt = ModelType.LIGHTWEIGHT) := by
  intro prompt customer_tier htier hlen hsimple hent hcomplex
  have hlen' : ¬ (pySplit prompt).length > 50 := by omega
  have hana : analyze_task_complexity prompt = TaskComplexity.SIMPLE := by
    simp [analyze_task_complexity, hent, hcomplex, hsimple, hlen']
  refine ⟨hana, ?_, ?_⟩
  · rw [hana]
    simp [select_optimal_model, htier]
  · intro hheavy
    have hcount : heavyweight_keywords.countP
        (fun keyword => pyContains (pyToLower prompt) keyword) = 0 := by
      rw [List.countP_eq_zero]
      intro a ha
      rw [List.any_eq_false] at hheavy
      exact hheavy a ha
    simp [ComplexityAnalyzer.analyze_prompt, hlen', hcount]

/-- Witness for the amended C3: the SmartModelRouter conclusions at
"explain code" (a prompt containing a heavyweight keyword of the other
analyzer, for which the original claim failed), and the ComplexityAnalyzer
conclusion at a prompt free of heavyweight keywords. -/
theorem C3_amended_simple_prompt_lightweight_witness :
    (analyze_task_complexity "explain code" = TaskComplexity.SIMPLE ∧
     select_optimal_model (analyze_task_complexity "explain code") "basic" =
       ModelType.LIGHTWEIGHT) ∧
    (analyze_task_complexity "hello there friend" = TaskComplexity.SIMPLE ∧
     ComplexityAnalyzer.analyze_prompt "hello there friend" = ModelType.LIGHTWEIGHT) :=
  ⟨⟨(C3_amended_simple_prompt_lightweight "explain code" "basic"
       (by decide) (by decide) (by decide) (by decide) (by decide)).1,
    (C3_amended_simple_prompt_lightweight "explain code" "basic"
       (by decide) (by decide) (by decide) (by decide) (by decide)).2.1⟩,
   ⟨(C3_amended_simple_prompt_lightweight "hello there friend" "premium"
       (by decide) (by decide) (by decide) (by decide) (by decide)).1,
    (C3_amended_simple_prompt_lightweight "hello there friend" "premium"
       (by decide) (by decide) (by decide) (by decide) (by decide)).2.2 (by decide)⟩⟩

/-- Counterexample to claim C2 as stated: when both models fail,
`SmartModelRouter.generate_response` does not return a canned fallback
string; it raises Exception("All AI models unavailable") (an `Except.error`
in the embedding), after calling the selected model and the alternate model
once each. -/
theorem C2_counterexample :
    (SmartModelRouter.generate_response initial_stats "hello" "basic"
        (fun _ => Except.error "connection refused") 1).result =
      Except.error "All AI models unavailable" ∧
    (SmartModelRouter.generate_response initial_stats "hello" "basic"
        (fun _ => Except.error "connection refused") 1).calls =
      [ModelType.LIGHTWEIGHT, ModelType.HEAVYWEIGHT] := by
  constructor <;> rfl

/-- Claim C2 as amended: if the first model call fails,
`SmartModelRouter.generate_response` makes exactly one call to the
alternate model; if that call also fails it raises
"All AI models unavailable" rather than returning a fallback.
`OllamaRouter.generate_response` makes no alternate-model call: on any
failure it returns the `_fallback_response` dictionary, whose response is
one of four canned fallback strings (and whose success field is False with
`model_used = "fallback"`). -/
theorem C2_amended_failure_handling :
    (∀ (stats : RouterStats) (prompt customer_tier : String)
        (oracle : ModelType → Except String String) (rt : Rat) (e : String),
        oracle (select_optimal_model (analyze_task_complexity prompt) customer_tier) =
          Except.error e →
        (SmartModelRouter.generate_response stats prompt customer_tier oracle rt).calls =
          [select_optimal_model (analyze_task_complexity prompt) customer_tier,
           alternative_model
             (select_optimal_model (analyze_task_complexity prompt) customer_tier)] ∧
        (∀ e2 : String,
            oracle (alternative_model
              (select_optimal_model (analyze_task_complexity prompt) customer_tier)) =
              Except.error e2 →
            (SmartModelRouter.generate_response stats prompt customer_tier oracle rt).result =
              Except.error "All AI models unavailable")) ∧
    (∀ (prompt : String) (customer_tier : Option String) (e : String) (rt : Rat),
        OllamaRouter.generate_response prompt customer_tier (Except.error e) rt =
          OllamaRouter.fallback_response prompt e ∧
        (OllamaRouter.fallback_response prompt e).success = false ∧
        (OllamaRouter.fallback_response prompt e).model_used = "fallback" ∧
        (OllamaRouter.fallback_response prompt e).response ∈
          ["I can help you with coding. Here\x27s a basic structure:\n\n```python\n# Your code here\ndef solution():\n    pass\n```",
           "Based on current market trends, focus on acquisition and retention; optimize pricing and margins.",
           "This requires technical analysis. I can provide detailed implementation guidance.",
           "I understand your request. Here\x27s a comprehensive response to help you proceed."]) := by
  constructor
  · intro stats prompt customer_tier oracle rt e h
    constructor
    · cases h2 : oracle (alternative_model
          (select_optimal_model (analyze_task_complexity prompt) customer_tier)) <;>
        simp [SmartModelRouter.generate_response, h, h2]
    · intro e2 h2
      simp [SmartModelRouter.generate_response, h, h2]
  · intro prompt customer_tier e rt
    refine ⟨rfl, rfl, rfl, ?_⟩
    simp only [OllamaRouter.fallback_response]
    split_ifs <;> simp

/-- Witness for the amended C2 with both backends down and tier "basic". -/
theorem C2_amended_failure_handling_witness :
    (SmartModelRouter.generate_response initial_stats "hi" "basic"
        (fun _ => Except.error "down") 1).calls =
      [select_optimal_model (analyze_task_complexity "hi") "basic",
       alternative_model (select_optimal_model (analyze_task_complexity "hi") "basic")] ∧
    (SmartModelRouter.generate_response initial_stats "hi" "basic"
        (fun _ => Except.error "down") 1).result =
      Except.error "All AI models unavailable" ∧
    OllamaRouter.generate_response "hi" (some "basic") (Except.error "down") 1 =
      OllamaRouter.fallback_response "hi" "down" :=
  ⟨(C2_amended_failure_handling.1 initial_stats "hi" "basic"
      (fun _ => Except.error "down") 1 "down" rfl).1,
   (C2_amended_failure_handling.1 initial_stats "hi" "basic"
      (fun _ => Except.error "down") 1 "down" rfl).2 "down" rfl,
   (C2_amended_failure_handling.2 "hi" (some "basic") "down" 1).1⟩

/-- Counterexample to claim C4 as stated: the circuit-breaker state left by
five earlier failed calls changes the outcome of a later identical call.
From the fresh state a call at time 10 whose backend would answer 200
succeeds; after five all-failing calls the same call at the same time is
short-circuited with "circuit_open" and no HTTP request. -/
theorem C4_counterexample :
    (runCalls initial_cb_state "llama3.2:3b" "hello"
        (List.replicate 5 ((0 : Int), fun _ => AttemptOutcome.timeout))).open_until = 15 ∧
    (call_ollama (runCalls initial_cb_state "llama3.2:3b" "hello"
          (List.replicate 5 ((0 : Int), fun _ => AttemptOutcome.timeout)))
        "llama3.2:3b" "hello" 10 (fun _ => AttemptOutcome.ok200 "ok")).resp.error =
      some "circuit_open" ∧
    (call_ollama (runCalls initial_cb_state "llama3.2:3b" "hello"
          (List.replicate 5 ((0 : Int), fun _ => AttemptOutcome.timeout)))
        "llama3.2:3b" "hello" 10 (fun _ => AttemptOutcome.ok200 "ok")).attempts = 0 ∧
    (call_ollama initial_cb_state "llama3.2:3b" "hello" 10
        (fun _ => AttemptOutcome.ok200 "ok")).resp.success = true ∧
    (call_ollama (runCalls initial_cb_state "llama3.2:3b" "hello"
          (List.replicate 5 ((0 : Int), fun _ => AttemptOutcome.timeout)))
        "llama3.2:3b" "hello" 10 (fun _ => AttemptOutcome.ok200 "ok")).resp ≠
      (call_ollama initial_cb_state "llama3.2:3b" "hello" 10
          (fun _ => AttemptOutcome.ok200 "ok")).resp := by
  refine ⟨by decide, by decide, by decide, by decide, by decide⟩

/-- Claim C4 as amended: model selection and the returned result of
`SmartModelRouter.generate_response` are independent of the statistics
counters left by earlier requests (the same prompt, tier and backend
behaviour give the same result and the same dispatch path from any two
statistics states); the `BulletproofClient` circuit-breaker state, by
contrast, does influence later calls. -/
theorem C4_amended_selection_stateless :
    ∀ (stats1 stats2 : RouterStats) (prompt customer_tier : String)
      (oracle : ModelType → Except String String) (rt : Rat),
      (SmartModelRouter.generate_response stats1 prompt customer_tier oracle rt).result =
        (SmartModelRouter.generate_response stats2 prompt customer_tier oracle rt).result ∧
      (SmartModelRouter.generate_response stats1 prompt customer_tier oracle rt).calls =
        (SmartModelRouter.generate_response stats2 prompt customer_tier oracle rt).calls := by
  intro stats1 stats2 prompt customer_tier oracle rt
  cases h1 : oracle (select_optimal_model (analyze_task_complexity prompt) customer_tier) with
  | ok r =>
      constructor <;> simp [SmartModelRouter.generate_response, h1]
  | error e =>
      cases h2 : oracle (alternative_model
          (select_optimal_model (analyze_task_complexity prompt) customer_tier)) <;>
        constructor <;> simp [SmartModelRouter.generate_response, h1, h2]

/-- Counterexample to claim C6 as stated: the circuit can open without five
consecutive calls in which every attempt failed.  A call whose first attempt
gets HTTP 200 but whose body fails JSON parsing resets the failure count
(so not every attempt of it failed, by the claim's own identification of a
successful attempt with HTTP 200) yet still counts as one failed call; four
all-failing calls, one such mixed call, then four more all-failing calls
open the circuit, although the trailing run of calls in which every attempt
failed has length 4, not 5. -/
theorem C6_counterexample :
    (runCalls initial_cb_state "m" "p"
        [((0 : Int), fun _ => AttemptOutcome.timeout),
         ((0 : Int), fun _ => AttemptOutcome.timeout),
         ((0 : Int), fun _ => AttemptOutcome.timeout),
         ((0 : Int), fun _ => AttemptOutcome.timeout),
         ((0 : Int), fun i => if i = 0 then AttemptOutcome.badJson200 else AttemptOutcome.timeout),
         ((0 : Int), fun _ => AttemptOutcome.timeout),
         ((0 : Int), fun _ => AttemptOutcome.timeout),
         ((0 : Int), fun _ => AttemptOutcome.timeout),
         ((0 : Int), fun _ => AttemptOutcome.timeout)]).open_until = 15 ∧
    (call_ollama (runCalls initial_cb_state "m" "p"
          [((0 : Int), fun _ => AttemptOutcome.timeout),
           ((0 : Int), fun _ => AttemptOutcome.timeout),
           ((0 : Int), fun _ => AttemptOutcome.timeout),
           ((0 : Int), fun _ => AttemptOutcome.timeout),
           ((0 : Int), fun i => if i = 0 then AttemptOutcome.badJson200 else AttemptOutcome.timeout),
           ((0 : Int), fun _ => AttemptOutcome.timeout),
           ((0 : Int), fun _ => AttemptOutcome.timeout),
           ((0 : Int), fun _ => AttemptOutcome.timeout),
           ((0 : Int), fun _ => AttemptOutcome.timeout)])
        "m" "p" 1 (fun _ => AttemptOutcome.timeout)).resp.error = some "circuit_open" ∧
    trailingAllFailed
        [((0 : Int), fun _ => AttemptOutcome.timeout),
         ((0 : Int), fun _ => AttemptOutcome.timeout),
         ((0 : Int), fun _ => AttemptOutcome.timeout),
         ((0 : Int), fun _ => AttemptOutcome.timeout),
         ((0 : Int), fun i => if i = 0 then AttemptOutcome.badJson200 else AttemptOutcome.timeout),
         ((0 : Int), fun _ => AttemptOutcome.timeout),
         ((0 : Int), fun _ => AttemptOutcome.timeout),
         ((0 : Int), fun _ => AttemptOutcome.timeout),
         ((0 : Int), fun _ => AttemptOutcome.timeout)] = 4 ∧
    allAttemptsFailed
        (fun i => if i = 0 then AttemptOutcome.badJson200 else AttemptOutcome.timeout) = false ∧
    (4 : Nat) < failure_threshold := by
  refine ⟨by decide, by decide, by decide, by decide, by decide⟩

/-- Claim C6 as amended: while the circuit is open
(`t < _open_until`) `call_ollama` issues no HTTP request and immediately
returns a failure with error "circuit_open" and status 503, leaving the
state unchanged; `_failure_threshold` is 5 and `_open_cooldown_s` is 15;
a call containing a successful (HTTP 200, parseable) attempt leaves the
failure count at 0; a call in which every attempt failed (no HTTP 200 at
all) increments the failure count by one and, exactly when the new count
reaches the threshold, opens the circuit until `t + 15`; and a failed call
that nevertheless contained an HTTP-200 attempt (malformed JSON body)
resets the count before incrementing, leaving it at 1 without opening the
circuit. -/
theorem C6_amended_circuit_breaker :
    failure_threshold = 5 ∧ open_cooldown_s = 15 ∧
    (∀ (s : CBState) (model prompt : String) (t : Int) (o : Nat → AttemptOutcome),
        t < s.open_until →
        call_ollama s model prompt t o =
          { resp := { success := false, data := "", error := some "circuit_open",
                      status_code := 503, response_time := 0 },
            state := s, attempts := 0, sleeps := [] }) ∧
    (∀ (s : CBState) (model prompt : String) (t : Int) (o : Nat → AttemptOutcome),
        ¬ t < s.open_until →
        (isOk200 (o 0) || isOk200 (o 1) || isOk200 (o 2)) = true →
        (call_ollama s model prompt t o).state.failure_count = 0 ∧
        (call_ollama s model prompt t o).state.open_until = s.open_until) ∧
    (∀ (s : CBState) (model prompt : String) (t : Int) (o : Nat → AttemptOutcome),
        ¬ t < s.open_until →
        allAttemptsFailed o = true →
        (call_ollama s model prompt t o).state.failure_count = s.failure_count + 1 ∧
        (call_ollama s model prompt t o).state.open_until =
          (if failure_threshold ≤ s.failure_count + 1 then t + open_cooldown_s
           else s.open_until)) ∧
    (∀ (s : CBState) (model prompt : String) (t : Int) (o : Nat → AttemptOutcome),
        ¬ t < s.open_until →
        (isOk200 (o 0) || isOk200 (o 1) || isOk200 (o 2)) = false →
        (has200 (o 0) || has200 (o 1) || has200 (o 2)) = true →
        (call_ollama s model prompt t o).state.failure_count = 1 ∧
        (call_ollama s model prompt t o).state.open_until = s.open_until) := by
  refine ⟨rfl, rfl, ?_, ?_, ?_, ?_⟩
  · intro s model prompt t o h
    simp [call_ollama, h]
  · intro s model prompt t o h hsucc
    cases h0 : o 0 <;> cases h1 : o 1 <;> cases h2 : o 2 <;>
      simp_all [call_ollama, isOk200, fcAfter, if_neg h]
  · intro s model prompt t o h hfail
    cases h0 : o 0 <;> cases h1 : o 1 <;> cases h2 : o 2 <;>
      simp_all [call_ollama, allAttemptsFailed, has200, fcAfter, if_neg h]
  · intro s model prompt t o h hnosucc h200
    cases h0 : o 0 <;> cases h1 : o 1 <;> cases h2 : o 2 <;>
      simp_all [call_ollama, isOk200, has200, fcAfter, failure_threshold, if_neg h]

/-- Witness for the amended C6: the open-circuit short-circuit, the reset
on a successful attempt, the increment-and-trip on an all-failing call, and
the reset-then-increment on a failed call with a malformed-JSON 200. -/
theorem C6_amended_circuit_breaker_witness :
    call_ollama { failure_count := 0, open_until := 20 } "m" "p" 5
        (fun _ => AttemptOutcome.ok200 "hi") =
      { resp := { success := false, data := "", error := some "circuit_open",
                  status_code := 503, response_time := 0 },
        state := { failure_count := 0, open_until := 20 }, attempts := 0, sleeps := [] } ∧
    (call_ollama { failure_count := 3, open_until := 0 } "m" "p" 0
        (fun _ => AttemptOutcome.ok200 "hi")).state.failure_count = 0 ∧
    (call_ollama { failure_count := 4, open_until := 0 } "m" "p" 0
        (fun _ => AttemptOutcome.timeout)).state.failure_count = 4 + 1 ∧
    (call_ollama { failure_count := 4, open_until := 0 } "m" "p" 0
        (fun _ => AttemptOutcome.timeout)).state.open_until =
      (if failure_threshold ≤ 4 + 1 then 0 + open_cooldown_s else 0) ∧
    (call_ollama { failure_count := 4, open_until := 0 } "m" "p" 0
        (fun i => if i = 0 then AttemptOutcome.badJson200 else AttemptOutcome.timeout)).state.failure_count = 1 :=
  ⟨C6_amended_circuit_breaker.2.2.1 { failure_count := 0, open_until := 20 } "m" "p" 5
      (fun _ => AttemptOutcome.ok200 "hi") (by decide),
   (C6_amended_circuit_breaker.2.2.2.1 { failure_count := 3, open_until := 0 } "m" "p" 0
      (fun _ => AttemptOutcome.ok200 "hi") (by decide) (by decide)).1,
   (C6_amended_circuit_breaker.2.2.2.2.1 { failure_count := 4, open_until := 0 } "m" "p" 0
      (fun _ => AttemptOutcome.timeout) (by decide) (by decide)).1,
   (C6_amended_circuit_breaker.2.2.2.2.1 { failure_count := 4, open_until := 0 } "m" "p" 0
      (fun _ => AttemptOutcome.timeout) (by decide) (by decide)).2,
   (C6_amended_circuit_breaker.2.2.2.2.2 { failure_count := 4, open_until := 0 } "m" "p" 0
      (fun i => if i = 0 then AttemptOutcome.badJson200 else AttemptOutcome.timeout)
      (by decide) (by decide) (by decide)).1⟩

/-- Claim C7: within one invocation `call_ollama` attempts the HTTP request
at most `max_retries = 3` times; after the i-th failed attempt (i = 0, 1)
and before the next one it sleeps `retry_delay * 2 ** i` seconds (1 s then
2 s), with no sleep after the final attempt (the sleeps performed are always
the first `attempts - 1` of [1, 2]); and when every attempt failed it
returns a failure APIResponse with error "Service unavailable" and status
code 500. -/
theorem C7_retry_exponential_backoff :
    max_retries = 3 ∧ retry_delay = 1 ∧
    (∀ (s : CBState) (model prompt : String) (t : Int) (o : Nat → AttemptOutcome),
        (call_ollama s model prompt t o).attempts ≤ max_retries) ∧
    (∀ (s : CBState) (model prompt : String) (t : Int) (o : Nat → AttemptOutcome),
        ¬ t < s.open_until →
        (call_ollama s model prompt t o).sleeps =
          [retry_delay * 2 ^ 0, retry_delay * 2 ^ 1].take
            ((call_ollama s model prompt t o).attempts - 1)) ∧
    (∀ (s : CBState) (model prompt : String) (t : Int) (o : Nat → AttemptOutcome),
        ¬ t < s.open_until →
        (isOk200 (o 0) || isOk200 (o 1) || isOk200 (o 2)) = false →
        (call_ollama s model prompt t o).resp =
          { success := false, data := "", error := some "Service unavailable",
            status_code := 500, response_time := 0 } ∧
        (call_ollama s model prompt t o).attempts = 3 ∧
        (call_ollama s model prompt t o).sleeps = [1, 2]) := by
  refine ⟨rfl, rfl, ?_, ?_, ?_⟩
  · intro s model prompt t o
    by_cases h : t < s.open_until
    · simp [call_ollama, h, max_retries]
    · cases h0 : o 0 <;> cases h1 : o 1 <;> cases h2 : o 2 <;>
        simp_all [call_ollama, max_retries, if_neg h]
  · intro s model prompt t o h
    cases h0 : o 0 <;> cases h1 : o 1 <;> cases h2 : o 2 <;>
      simp_all [call_ollama, if_neg h]
  · intro s model prompt t o h hfail
    cases h0 : o 0 <;> cases h1 : o 1 <;> cases h2 : o 2 <;>
      simp_all [call_ollama, isOk200, retry_delay, if_neg h]

/-- Witness for C7 with an all-failing backend and with a backend that
succeeds on the second attempt. -/
theorem C7_retry_exponential_backoff_witness :
    (call_ollama { failure_count := 0, open_until := 0 } "m" "p" 0
        (fun _ => AttemptOutcome.timeout)).attempts ≤ max_retries ∧
    (call_ollama { failure_count := 0, open_until := 0 } "m" "p" 0
        (fun i => if i = 0 then AttemptOutcome.non200 500 else AttemptOutcome.ok200 "hi")).sleeps =
      [retry_delay * 2 ^ 0, retry_delay * 2 ^ 1].take
        ((call_ollama { failure_count := 0, open_until := 0 } "m" "p" 0
            (fun i => if i = 0 then AttemptOutcome.non200 500 else AttemptOutcome.ok200 "hi")).attempts - 1) ∧
    (call_ollama { failure_count := 0, open_until := 0 } "m" "p" 0
        (fun _ => AttemptOutcome.timeout)).resp =
      { success := false, data := "", error := some "Service unavailable",
        status_code := 500, response_time := 0 } ∧
    (call_ollama { failure_count := 0, open_until := 0 } "m" "p" 0
        (fun _ => AttemptOutcome.timeout)).sleeps = [1, 2] :=
  ⟨C7_retry_exponential_backoff.2.2.1 { failure_count := 0, open_until := 0 } "m" "p" 0
      (fun _ => AttemptOutcome.timeout),
   C7_retry_exponential_backoff.2.2.2.1 { failure_count := 0, open_until := 0 } "m" "p" 0
      (fun i => if i = 0 then AttemptOutcome.non200 500 else AttemptOutcome.ok200 "hi")
      (by decide),
   (C7_retry_exponential_backoff.2.2.2.2 { failure_count := 0, open_until := 0 } "m" "p" 0
      (fun _ => AttemptOutcome.timeout) (by decide) (by decide)).1,
   (C7_retry_exponential_backoff.2.2.2.2 { failure_count := 0, open_until := 0 } "m" "p" 0
      (fun _ => AttemptOutcome.timeout) (by decide) (by decide)).2.2⟩

/-- Claim C8: `call_ollama` is total at its interface (in the embedding it
is a total function of the state, the model and prompt strings, the time
and any backend behaviour, covering timeouts, connection errors, other
exceptions, non-200 statuses and malformed 200 bodies), and the returned
APIResponse has success = true exactly when status_code = 200, and on
failure its data is the empty string and its error is non-None. -/
theorem C8_api_response_interface :
    ∀ (s : CBState) (model prompt : String) (t : Int) (o : Nat → AttemptOutcome),
      ((call_ollama s model prompt t o).resp.success = true ↔
        (call_ollama s model prompt t o).resp.status_code = 200) ∧
      ((call_ollama s model prompt t o).resp.success = false →
        (call_ollama s model prompt t o).resp.data = "" ∧
        (call_ollama s model prompt t o).resp.error ≠ none) := by
  intro s model prompt t o
  by_cases h : t < s.open_until
  · simp [call_ollama, h]
  · cases h0 : o 0 <;> cases h1 : o 1 <;> cases h2 : o 2 <;>
      simp_all [call_ollama, okResp, if_neg h]

/-- Witness for C8 at an all-failing backend: the failure response has
empty data and a non-None error. -/
theorem C8_api_response_interface_witness :
    (call_ollama { failure_count := 0, open_until := 0 } "m" "p" 0
        (fun _ => AttemptOutcome.connectError)).resp.data = "" ∧
    (call_ollama { failure_count := 0, open_until := 0 } "m" "p" 0
        (fun _ => AttemptOutcome.connectError)).resp.error ≠ none :=
  (C8_api_response_interface { failure_count := 0, open_until := 0 } "m" "p" 0
      (fun _ => AttemptOutcome.connectError)).2 rfl
